import Mathlib

/-!
Shallow embedding of `src/fetch_and_process_financial_data.py`.

Series values are modelled over `ℚ` (the script computes in IEEE doubles; the
claims under study are about control flow, selection logic and exact algebraic
identities, none of which depend on rounding).  A missing value (pandas `NaN`)
is `none : Option ℚ`.  A pandas `Series` with a month index is
`List (ℕ × Option ℚ)` (month number, value); a `DataFrame` is a `Panel`:
a shared index plus named columns.
-/

/-- One column of a pandas DataFrame: the value at each row position,
`none` for `NaN`. -/
abbrev Col : Type := List (Option ℚ)

/-- A pandas DataFrame: a (sorted) month index and named columns, each column
listing one value per index entry. -/
structure Panel where
  index : List ℕ
  cols : List (String × Col)
deriving Repr, DecidableEq

/-- `df.columns.tolist()`: the column names in order. -/
def Panel.columns (p : Panel) : List String :=
  p.cols.map Prod.fst

/-- `df[name]`: the named column, `none` when absent (pandas raises `KeyError`;
the scripted flow only reads columns it created). -/
def Panel.getCol (p : Panel) (name : String) : Option Col :=
  (p.cols.find? (fun c => c.1 = name)).map (fun c => c.2)

/-- `df[name]` where the caller relies on the column existing. -/
def Panel.getColD (p : Panel) (name : String) : Col :=
  (p.getCol name).getD []

/-- `df[name] = v`: pandas column assignment — overwrite in place when the
name exists, otherwise append a new column at the end. -/
def Panel.setCol (p : Panel) (name : String) (v : Col) : Panel :=
  if p.cols.any (fun c => c.1 = name) then
    ⟨p.index, p.cols.map (fun c => if c.1 = name then (name, v) else c)⟩
  else
    ⟨p.index, p.cols ++ [(name, v)]⟩

/-- `Series.diff()` step: `cur - prev`, `NaN` when either operand is `NaN`. -/
def combineDiff (prev cur : Option ℚ) : Option ℚ :=
  match prev, cur with
  | some b, some a => some (a - b)
  | _, _ => none

/-- `Series.pct_change()` step: `cur / prev - 1`, `NaN` when either operand is
`NaN` (pandas with no forward-fill; the script's series carry no interior
`NaN` at the points the claims quantify over, so the fill option is moot). -/
def combinePct (prev cur : Option ℚ) : Option ℚ :=
  match prev, cur with
  | some b, some a => some (a / b - 1)
  | _, _ => none

/-- `Series.diff()` on a positional column: element `t` pairs element `t-1`
with element `t`; element `0` has no predecessor and maps to `NaN`. -/
def diffCol (l : Col) : Col :=
  List.zipWith combineDiff (none :: l) l

/-- `Series.pct_change()` on a positional column. -/
def pct_changeCol (l : Col) : Col :=
  List.zipWith combinePct (none :: l) l

/-- `series * 100`: elementwise scaling, `NaN` stays `NaN`. -/
def scaleCol (q : ℚ) (l : Col) : Col :=
  l.map (Option.map (fun x => x * q))

/-- `Series.dropna()`: keep the non-missing values, in order. -/
def dropna (s : List (Option ℚ)) : List ℚ :=
  s.filterMap id

/-- `adf_test` (source lines 101–111): the statsmodels `adfuller` call is the
abstract parameter `adfuller` (third-party code); the function under study
passes it `series.dropna()` and returns whatever it produces.  The logging
call has no effect on the returned value and is omitted. -/
def adf_test {α : Type} (adfuller : List ℚ → α) (series : List (Option ℚ)) : α :=
  adfuller (dropna series)

/-- True when some missing entry lies strictly between two non-missing ones:
helper — a `none` followed (not necessarily adjacently) by a `some`. -/
def hasNoneThenSome : List (Option ℚ) → Bool
  | [] => false
  | none :: r => r.any Option.isSome || hasNoneThenSome r
  | some _ :: r => hasNoneThenSome r

/-- The claim's "missing interior value": a `none` with a `some` somewhere
before it and a `some` somewhere after it. -/
def has_interior_missing : List (Option ℚ) → Bool
  | [] => false
  | none :: r => has_interior_missing r
  | some _ :: r => hasNoneThenSome r

/-- Gregorian leap year, as Python's `datetime` uses. -/
def isLeap (y : ℕ) : Bool :=
  decide ((y % 4 = 0 ∧ y % 100 ≠ 0) ∨ y % 400 = 0)

/-- Days in a month of a given year. -/
def daysInMonth (y m : ℕ) : ℕ :=
  if m = 1 ∨ m = 3 ∨ m = 5 ∨ m = 7 ∨ m = 8 ∨ m = 10 ∨ m = 12 then 31
  else if m = 4 ∨ m = 6 ∨ m = 9 ∨ m = 11 then 30
  else if m = 2 then (if isLeap y then 29 else 28)
  else 0

/-- The numeric value of a digit string. -/
def digitsVal (s : List Char) : ℕ :=
  s.foldl (fun a c => a * 10 + (c.toNat - 48)) 0

/-- The `%Y` field of strptime's TimeRE, `\d\d\d\d`: exactly four digits. -/
def parseYear (s : List Char) : Option ℕ :=
  if s.length = 4 ∧ s.all Char.isDigit then some (digitsVal s) else none

/-- The `%m` field of strptime's TimeRE, `1[0-2]|0[1-9]|[1-9]`: one or two
digits whose value is 1–12 (so `0`, `00` and `13`–`99` fail, as do longer
runs, which leave unconverted characters before the following dash). -/
def parseMonth (s : List Char) : Option ℕ :=
  if (s.length = 1 ∨ s.length = 2) ∧ s.all Char.isDigit ∧
      1 ≤ digitsVal s ∧ digitsVal s ≤ 12 then
    some (digitsVal s)
  else
    none

/-- The `%d` field of strptime's TimeRE, `3[0-1]|[1-2]\d|0[1-9]|[1-9]| [1-9]`:
one or two digits whose value is 1–31, or a space followed by a nonzero
digit (the space-padded day, e.g. `" 1"`). -/
def parseDay (s : List Char) : Option ℕ :=
  if (s.length = 1 ∨ s.length = 2) ∧ s.all Char.isDigit ∧
      1 ≤ digitsVal s ∧ digitsVal s ≤ 31 then
    some (digitsVal s)
  else
    match s with
    | [' ', c] => if '1' ≤ c ∧ c ≤ '9' then some (c.toNat - 48) else none
    | _ => none

/-- Split a character list on `-` (the separator of the `%Y-%m-%d` pattern),
keeping empty fields, as `str.split("-")` does.  Equivalent to matching the
anchored full-string regex `%Y-%m-%d` field by field, since no field may
contain a dash. -/
def splitOnDash : List Char → List (List Char)
  | [] => [[]]
  | c :: rest =>
    let r := splitOnDash rest
    if c = '-' then [] :: r
    else
      match r with
      | [] => [[c]]
      | h :: t => (c :: h) :: t

/-- Timestamp comparison: lexicographic on (year, month, day), which is how
`pd.Timestamp` values of valid dates compare. -/
def dateLt (a b : ℕ × ℕ × ℕ) : Bool :=
  a.1 < b.1 || (a.1 = b.1 && (a.2.1 < b.2.1 || (a.2.1 = b.2.1 && a.2.2 < b.2.2)))

/-- A date whose midnight timestamp is representable in pandas' nanosecond
`Timestamp`: from 1677-09-22 through 2262-04-11.  (`Timestamp.min` is
1677-09-21 00:12:43.145224193, so midnight of 1677-09-21 is already out of
bounds; `Timestamp.max` is 2262-04-11 23:47:16.854775807.)  Outside this
range `pd.to_datetime` raises `OutOfBoundsDatetime`, a `ValueError`
subclass. -/
def inTimestampRange (d : ℕ × ℕ × ℕ) : Bool :=
  !(dateLt d (1677, 9, 22)) && !(dateLt (2262, 4, 11) d)

/-- `pd.to_datetime(s, format="%Y-%m-%d")` (source line 23/24): the anchored
strptime pattern — a four-digit year, a dash, a one/two-digit month, a dash,
and a one/two-digit or space-padded day — whose fields must form a valid
calendar date representable as a pandas `Timestamp`.  `none` models the
`ValueError` the source catches (format mismatch, invalid calendar day, or
`OutOfBoundsDatetime`). -/
def to_datetime (s : String) : Option (ℕ × ℕ × ℕ) :=
  match splitOnDash s.toList with
  | [ys, ms, ds] =>
    match parseYear ys, parseMonth ms, parseDay ds with
    | some y, some m, some d =>
      if d ≤ daysInMonth y m ∧ inTimestampRange (y, m, d) = true then
        some (y, m, d)
      else
        none
    | _, _, _ => none
  | _ => none

/-- Modelled from the claim's words, for comparison with `to_datetime`: a
string in the exact `YYYY-MM-DD` shape — four digits, dash, two digits,
dash, two digits — naming a valid calendar date. -/
def exactYMD (s : String) : Option (ℕ × ℕ × ℕ) :=
  match splitOnDash s.toList with
  | [ys, ms, ds] =>
    if ys.length = 4 ∧ ys.all Char.isDigit ∧ ms.length = 2 ∧ ms.all Char.isDigit ∧
        ds.length = 2 ∧ ds.all Char.isDigit then
      let y := digitsVal ys
      let m := digitsVal ms
      let d := digitsVal ds
      if 1 ≤ m ∧ m ≤ 12 ∧ 1 ≤ d ∧ d ≤ daysInMonth y m then some (y, m, d) else none
    else
      none
  | _ => none

/-- A fitted-model object `mdl` as `select_lag_length` sees it (source line
122): the attributes the loop reads.  `aic` and `bic` are always present on a
statsmodels fit result.  `fpe := none` models the absence of an `fpe`
attribute, i.e. `hasattr(mdl, "fpe") == False`; statsmodels OLS regression
results define no `fpe` (it is a VAR-results statistic), so every
`sm.OLS(...).fit()` in this script yields `fpe = none`.  The type keeps the
field so that the `hasattr` guard is embedded as written rather than as dead
code. -/
structure OLSFit where
  aic : ℚ
  bic : ℚ
  fpe : Option ℚ
deriving Repr, DecidableEq

/-- The two dictionaries of `select_lag_length` (source lines 117–118):
`best` holds the running minimum per criterion (`none` plays the initial
`float("inf")`), `best_lag` the lag that achieved it (`None` initially). -/
structure LagSel where
  best_aic : Option ℚ
  best_bic : Option ℚ
  best_fpe : Option ℚ
  lag_aic : Option ℕ
  lag_bic : Option ℕ
  lag_fpe : Option ℕ
deriving Repr, DecidableEq

/-- The initial state: `best = {inf, inf, inf}`, `best_lag = {None, None,
None}`. -/
def initSel : LagSel :=
  ⟨none, none, none, none, none, none⟩

/-- `x < best` where `best` may still be the initial `float("inf")`. -/
def ltBest (x : ℚ) : Option ℚ → Bool
  | none => true
  | some b => decide (x < b)

/-- One iteration of the `for lag in range(1, max_lag + 1)` loop (source
lines 119–128): fit the model for this lag (the abstract `fit` — pandas
`shift`/`dropna` plus `sm.OLS(...).fit()`, third-party numerics) and update
each criterion's running minimum on a strict `<` comparison; the FPE update
additionally requires the attribute to exist (`hasattr(mdl, "fpe")`). -/
def selStep (fit : ℕ → OLSFit) (s : LagSel) (lag : ℕ) : LagSel :=
  let mdl := fit lag
  let s1 := if ltBest mdl.aic s.best_aic then
      { s with best_aic := some mdl.aic, lag_aic := some lag } else s
  let s2 := if ltBest mdl.bic s1.best_bic then
      { s1 with best_bic := some mdl.bic, lag_bic := some lag } else s1
  match mdl.fpe with
  | some v =>
    if ltBest v s2.best_fpe then
      { s2 with best_fpe := some v, lag_fpe := some lag } else s2
  | none => s2

/-- The lag grid `range(1, max_lag + 1)`: `[1, …, max_lag]`, empty when
`max_lag < 1`. -/
def lagGrid (max_lag : ℤ) : List ℕ :=
  List.range' 1 max_lag.toNat

/-- `select_lag_length` (source lines 115–130).  The per-lag OLS fit is the
abstract argument `fit` (the claims quantify over inputs on which every
per-lag fit succeeds, i.e. over `fit`); the function returns the `best_lag`
dictionary, carried here inside the full loop state. -/
def select_lag_length (fit : ℕ → OLSFit) (max_lag : ℤ) : LagSel :=
  (lagGrid max_lag).foldl (selStep fit) initSel

/-- One criterion's slice of the loop: its `(best, best_lag)` pair and its
update, with `v lag = none` meaning the fitted object does not expose this
criterion (only ever the case for `fpe`). -/
def critStep (v : ℕ → Option ℚ) (acc : Option ℚ × Option ℕ) (lag : ℕ) :
    Option ℚ × Option ℕ :=
  match v lag with
  | none => acc
  | some c => if ltBest c acc.1 then (some c, some lag) else acc

/-- `ols.ssr`: the sum of squared residuals of a fitted model. -/
def ssr_of (resid : List ℚ) : ℚ :=
  (resid.map (fun e => e ^ 2)).sum

/-- The FPE the script logs (source line 168): `(ssr / n) * ((n + k) / (n -
k))`. -/
def fpe_of (ssr n k : ℚ) : ℚ :=
  (ssr / n) * ((n + k) / (n - k))

/-- Arithmetic mean of a list. -/
def listMean (xs : List ℚ) : ℚ :=
  xs.sum / xs.length

/-- Modelled from the spec's words (§8 round-trip property), for comparison
with `fpe_of`: the FPE computed directly from the residual vector as
`mean(ε²)·(n+k)/(n−k)` with `n` the residual count. -/
def fpe_direct (resid : List ℚ) (k : ℚ) : ℚ :=
  listMean (resid.map (fun e => e ^ 2)) * ((resid.length : ℚ) + k) / ((resid.length : ℚ) - k)

/-- `validate_dates` (source lines 20–31): parse both strings with
`%Y-%m-%d`; a parse failure exits with "Dates must be YYYY-MM-DD",
`start >= end` exits with "Start date must be before end date", and otherwise
the pair is returned unchanged.  `sys.exit(1)` is modelled as `Except.error`
carrying the logged message. -/
def validate_dates (start : String) (ed : String) : Except String (String × String) :=
  match to_datetime start, to_datetime ed with
  | some s, some e =>
    if dateLt s e then Except.ok (start, ed)
    else Except.error "Start date must be before end date"
  | _, _ => Except.error "Dates must be YYYY-MM-DD"

/-- A raw downloaded series: ((month, day), value) observations in date
order, at the provider's native frequency. -/
abbrev RawSeries : Type := List ((ℕ × ℕ) × ℚ)

/-- The last observation falling in month `m` (`NaN` when the month has
none). -/
def lastInMonth (xs : RawSeries) (m : ℕ) : Option ℚ :=
  ((xs.filter (fun e => e.1.1 = m)).getLast?).map (fun e => e.2)

/-- `.resample("ME").last()`: one row per month from the first observed month
through the last, holding the month's final observation (or `NaN` for a month
with no data).  An empty input resamples to an empty series. -/
def resample_last (xs : RawSeries) : List (ℕ × Option ℚ) :=
  match xs.map (fun e => e.1.1) with
  | [] => []
  | m :: ms =>
    let lo := ms.foldl min m
    let hi := ms.foldl max m
    (List.range' lo (hi + 1 - lo)).map (fun mo => (mo, lastInMonth xs mo))

/-- `.pct_change()` on a month-indexed series: keeps the index, first entry
maps to `NaN`. -/
def pct_change_series (s : List (ℕ × Option ℚ)) : List (ℕ × Option ℚ) :=
  List.zipWith (fun p c => (c.1, combinePct p.2 c.2)) ((0, (none : Option ℚ)) :: s) s

/-- Insert a key into a sorted deduplicated list of keys. -/
def insertSorted (m : ℕ) : List ℕ → List ℕ
  | [] => [m]
  | x :: xs =>
    if m < x then m :: x :: xs
    else if m = x then x :: xs
    else x :: insertSorted m xs

/-- The sorted union of the month indexes of several series — the outer-join
index `pd.concat(..., axis=1)` aligns on. -/
def unionIndex (ss : List (List (ℕ × Option ℚ))) : List ℕ :=
  ss.foldl (fun acc s => s.foldl (fun a e => insertSorted e.1 a) acc) []

/-- The value a series contributes at an index entry: its value at that month,
`NaN` when the month is not in the series' own index. -/
def alignAt (s : List (ℕ × Option ℚ)) (m : ℕ) : Option ℚ :=
  match s.find? (fun e => e.1 = m) with
  | some e => e.2
  | none => none

/-- `pd.concat([...], axis=1)` (source line 95): outer-join the named series
on the sorted union of their indexes. -/
def concatSeries (ss : List (String × List (ℕ × Option ℚ))) : Panel :=
  let idx := unionIndex (ss.map (fun s => s.2))
  ⟨idx, ss.map (fun s => (s.1, idx.map (alignAt s.2)))⟩

/-- `df.columns = [...]` (source line 96): rename the columns positionally. -/
def setColumns (p : Panel) (names : List String) : Panel :=
  ⟨p.index, names.zip (p.cols.map (fun c => c.2))⟩

/-- `build_dataframe` (source lines 56–98), taking the five already
downloaded raw series in the order the source fetches them (network retrieval
is out of scope).  NDX close prices are resampled to month-end and turned
into returns; the four FRED series are resampled to month-end; the five are
concatenated column-wise and the columns renamed to the canonical lower-case
labels.  The raw provider names (`series.name` assignments) are overwritten
by the `df.columns` assignment, so they are not modelled. -/
def build_dataframe (ndx ffr gs10 cpi vix : RawSeries) : Panel :=
  let ndx_ret := pct_change_series (resample_last ndx)
  let ffr_me := resample_last ffr
  let gs10_me := resample_last gs10
  let cpi_me := resample_last cpi
  let vix_me := resample_last vix
  let df := concatSeries
    [("ndx_ret", ndx_ret), ("ffr", ffr_me), ("gs10", gs10_me),
     ("cpi", cpi_me), ("vix", vix_me)]
  setColumns df ["ndx_ret", "ffr", "gs10", "cpi", "vix"]

/-- The transform block of `main` (source lines 143–146): append the four
derived columns, each a pure function of an existing column. -/
def add_derived (df : Panel) : Panel :=
  let d1 := df.setCol "d_ffr" (diffCol (df.getColD "ffr"))
  let d2 := d1.setCol "d_gs10" (diffCol (d1.getColD "gs10"))
  let d3 := d2.setCol "inflation" (scaleCol 100 (pct_changeCol (d2.getColD "cpi")))
  d3.setCol "d_vix" (diffCol (d3.getColD "vix"))

/-- The five canonical column labels, in the order the series are supplied. -/
def baseColumns : List String :=
  ["ndx_ret", "ffr", "gs10", "cpi", "vix"]

/-- A concrete fit oracle standing for the `sm.OLS(...).fit()` results of a
run on a small dataset: AIC decreasing in the lag, BIC increasing, and — as
for every statsmodels OLS result — no `fpe` attribute. -/
def fitBug : ℕ → OLSFit :=
  fun lag => ⟨-(lag : ℚ), (lag : ℚ), none⟩

/-- A second concrete sm.OLS-style fit oracle (no `fpe` attribute), with a
tie in AIC between lags 1 and 2. -/
def fitCex : ℕ → OLSFit :=
  fun lag => if lag = 1 then ⟨10, 12, none⟩ else ⟨10, 13, none⟩

/-- A concrete fit oracle whose objects all expose an `fpe` attribute
(hypothetical — e.g. VAR results), for witnessing the amended selection
property. -/
def fitW : ℕ → OLSFit :=
  fun lag => if lag = 2 then ⟨5, 7, some 3⟩ else ⟨6, 7, some 4⟩

/-- A trivial fit oracle for exercising the empty lag grid. -/
def fitZ : ℕ → OLSFit :=
  fun _ => ⟨0, 0, none⟩

/-- A concrete five-column panel of two rows, as `build_dataframe` would
produce it. -/
def df0 : Panel :=
  ⟨[0, 1],
   [("ndx_ret", [none, some (1 / 10)]),
    ("ffr", [some 2, some 3]),
    ("gs10", [some 4, some 5]),
    ("cpi", [some 100, some 110]),
    ("vix", [some 20, some 15])]⟩

/-- A one-month raw NDX close-price series. -/
def ndxC : RawSeries := [((0, 1), 10)]

/-- A one-observation raw FEDFUNDS series. -/
def ffrC : RawSeries := [((0, 5), 2)]

/-- A one-observation raw GS10 series. -/
def gs10C : RawSeries := [((0, 5), 4)]

/-- A one-observation raw CPIAUCSL series. -/
def cpiC : RawSeries := [((0, 5), 100)]

/-! ## Helper lemmas -/

/-- Aligning an empty series contributes `NaN` at every index entry. -/
theorem alignAt_nil (m : ℕ) : alignAt [] m = none :=
  rfl

/-- Mapping the constant `none` over an index gives an all-missing column. -/
theorem map_none_replicate (idx : List ℕ) :
    idx.map (fun _ => (none : Option ℚ)) = List.replicate idx.length none := by
  induction idx with
  | nil => rfl
  | cons x xs ih => simp [ih, List.replicate]

/-- The lag grid is strictly increasing. -/
theorem lagGrid_pairwise (m : ℤ) : (lagGrid m).Pairwise (fun a b => a < b) :=
  List.pairwise_lt_range' 1 m.toNat

/-- Lag 1 is on the grid as soon as `max_lag ≥ 1`. -/
theorem one_mem_lagGrid (m : ℤ) (h : 1 ≤ m) : 1 ∈ lagGrid m := by
  unfold lagGrid
  rw [List.mem_range'_1]
  omega

/-- Grid membership gives the claimed range `[1, max_lag]`. -/
theorem mem_lagGrid_bounds (m : ℤ) (L : ℕ) (h : L ∈ lagGrid m) :
    1 ≤ L ∧ (L : ℤ) ≤ m := by
  unfold lagGrid at h
  rw [List.mem_range'_1] at h
  omega

/-- One loop step, AIC slice: the AIC components of `selStep` behave as the
single-criterion step on the AIC accumulator pair. -/
theorem selStep_aic (fit : ℕ → OLSFit) (s : LagSel) (x : ℕ) :
    ((selStep fit s x).best_aic, (selStep fit s x).lag_aic) =
      critStep (fun lag => some (fit lag).aic) (s.best_aic, s.lag_aic) x := by
  cases hf : (fit x).fpe <;> simp only [selStep, critStep, hf] <;> split_ifs <;> rfl

/-- One loop step, BIC slice. -/
theorem selStep_bic (fit : ℕ → OLSFit) (s : LagSel) (x : ℕ) :
    ((selStep fit s x).best_bic, (selStep fit s x).lag_bic) =
      critStep (fun lag => some (fit lag).bic) (s.best_bic, s.lag_bic) x := by
  cases hf : (fit x).fpe <;> simp only [selStep, critStep, hf] <;> split_ifs <;> rfl

/-- One loop step, FPE slice (the criterion value may be absent). -/
theorem selStep_fpe (fit : ℕ → OLSFit) (s : LagSel) (x : ℕ) :
    ((selStep fit s x).best_fpe, (selStep fit s x).lag_fpe) =
      critStep (fun lag => (fit lag).fpe) (s.best_fpe, s.lag_fpe) x := by
  cases hf : (fit x).fpe <;> simp only [selStep, critStep, hf] <;> split_ifs <;> rfl

/-- The whole loop, AIC slice. -/
theorem foldl_selStep_aic (fit : ℕ → OLSFit) (l : List ℕ) (s : LagSel) :
    ((l.foldl (selStep fit) s).best_aic, (l.foldl (selStep fit) s).lag_aic) =
      l.foldl (critStep (fun lag => some (fit lag).aic)) (s.best_aic, s.lag_aic) := by
  induction l generalizing s with
  | nil => rfl
  | cons x xs ih =>
    rw [List.foldl_cons, List.foldl_cons, ih, selStep_aic]

/-- The whole loop, BIC slice. -/
theorem foldl_selStep_bic (fit : ℕ → OLSFit) (l : List ℕ) (s : LagSel) :
    ((l.foldl (selStep fit) s).best_bic, (l.foldl (selStep fit) s).lag_bic) =
      l.foldl (critStep (fun lag => some (fit lag).bic)) (s.best_bic, s.lag_bic) := by
  induction l generalizing s with
  | nil => rfl
  | cons x xs ih =>
    rw [List.foldl_cons, List.foldl_cons, ih, selStep_bic]

/-- The whole loop, FPE slice. -/
theorem foldl_selStep_fpe (fit : ℕ → OLSFit) (l : List ℕ) (s : LagSel) :
    ((l.foldl (selStep fit) s).best_fpe, (l.foldl (selStep fit) s).lag_fpe) =
      l.foldl (critStep (fun lag => (fit lag).fpe)) (s.best_fpe, s.lag_fpe) := by
  induction l generalizing s with
  | nil => rfl
  | cons x xs ih =>
    rw [List.foldl_cons, List.foldl_cons, ih, selStep_fpe]

/-- Correctness of the strict-`<` running-minimum fold for one criterion over
a strictly increasing grid, starting from `best = inf`, `best_lag = None`:
either no grid point exposes the criterion and the accumulator is untouched,
or the selected lag is the smallest grid point attaining the minimum exposed
value. -/
theorem critFold_correct (v : ℕ → Option ℚ) (l : List ℕ)
    (hl : l.Pairwise (fun a b => a < b)) :
    ((∀ x ∈ l, v x = none) ∧ l.foldl (critStep v) (none, none) = (none, none)) ∨
    (∃ m L, l.foldl (critStep v) (none, none) = (some m, some L) ∧ L ∈ l ∧
      v L = some m ∧ (∀ x ∈ l, ∀ c, v x = some c → m ≤ c) ∧
      (∀ x ∈ l, v x = some m → L ≤ x)) := by
  induction l using List.reverseRecOn with
  | nil =>
    left
    exact ⟨(fun x hx => nomatch hx), rfl⟩
  | append_singleton p x ih =>
    rw [List.pairwise_append] at hl
    obtain ⟨hp, _, hlt⟩ := hl
    have hltx : ∀ a ∈ p, a < x := fun a ha => hlt a ha x (List.mem_singleton_self x)
    rw [List.foldl_append]
    rcases ih hp with ⟨hnone, heq⟩ | ⟨m, L, heq, hL, hvL, hmin, hfirst⟩
    · rw [heq]
      rcases hx : v x with _ | c
      · left
        constructor
        · intro y hy
          rcases List.mem_append.1 hy with hy | hy
          · exact hnone y hy
          · rw [List.mem_singleton.1 hy, hx]
        · simp [critStep, hx]
      · right
        refine ⟨c, x, ?_, List.mem_append.2 (Or.inr (List.mem_singleton_self x)), hx, ?_, ?_⟩
        · simp [critStep, hx, ltBest]
        · intro y hy c2 hy2
          rcases List.mem_append.1 hy with hy | hy
          · rw [hnone y hy] at hy2; cases hy2
          · rw [List.mem_singleton.1 hy, hx] at hy2
            exact le_of_eq (Option.some.inj hy2)
        · intro y hy _
          rcases List.mem_append.1 hy with hy | hy
          · exact absurd (hnone y hy) (by
              intro hcon
              rename_i hy2
              rw [hcon] at hy2
              cases hy2)
          · exact le_of_eq (List.mem_singleton.1 hy).symm
    · rw [heq]
      rcases hx : v x with _ | c
      · right
        refine ⟨m, L, by simp [critStep, hx], List.mem_append.2 (Or.inl hL), hvL, ?_, ?_⟩
        · intro y hy c2 hy2
          rcases List.mem_append.1 hy with hy | hy
          · exact hmin y hy c2 hy2
          · rw [List.mem_singleton.1 hy, hx] at hy2; cases hy2
        · intro y hy hy2
          rcases List.mem_append.1 hy with hy | hy
          · exact hfirst y hy hy2
          · rw [List.mem_singleton.1 hy, hx] at hy2; cases hy2
      · by_cases hc : c < m
        · right
          refine ⟨c, x, ?_, List.mem_append.2 (Or.inr (List.mem_singleton_self x)), hx, ?_, ?_⟩
          · simp [critStep, hx, ltBest, hc]
          · intro y hy c2 hy2
            rcases List.mem_append.1 hy with hy | hy
            · exact le_of_lt (lt_of_lt_of_le hc (hmin y hy c2 hy2))
            · rw [List.mem_singleton.1 hy, hx] at hy2
              exact le_of_eq (Option.some.inj hy2)
          · intro y hy hy2
            rcases List.mem_append.1 hy with hy | hy
            · exact absurd (hmin y hy c hy2) (not_le_of_lt hc)
            · exact le_of_eq (List.mem_singleton.1 hy).symm
        · right
          refine ⟨m, L, ?_, List.mem_append.2 (Or.inl hL), hvL, ?_, ?_⟩
          · simp [critStep, hx, ltBest, hc]
          · intro y hy c2 hy2
            rcases List.mem_append.1 hy with hy | hy
            · exact hmin y hy c2 hy2
            · rw [List.mem_singleton.1 hy, hx] at hy2
              rw [← Option.some.inj hy2]
              exact le_of_not_lt hc
          · intro y hy hy2
            rcases List.mem_append.1 hy with hy | hy
            · exact hfirst y hy hy2
            · exact le_of_lt (lt_of_lt_of_le (hltx L hL) (le_of_eq (List.mem_singleton.1 hy).symm))

/-! ## Claim theorems -/

/-- Claim C1 (code bug, evaluation at the failing input): on a run whose
per-lag sm.OLS fits are `fitBug` with `max_lag = 3`, `select_lag_length`
assigns AIC and BIC lags inside `[1, 3]`, but leaves the `"fpe"` entry `None`:
`hasattr(mdl, "fpe")` is `False` for every statsmodels OLS fit result, so the
FPE branch of the loop never runs, contradicting the docstring "pick optimal
lag by AIC/SC/FPE" and the spec's `LagSelection` contract. -/
theorem select_lag_length_fpe_entry_none :
    (select_lag_length fitBug 3).lag_aic = some 3 ∧
    (select_lag_length fitBug 3).lag_bic = some 1 ∧
    (select_lag_length fitBug 3).lag_fpe = none := by
  decide

/-- Claim C2 (counterexample): with sm.OLS-style fits (`fpe` attribute
absent) and `max_lag = 1`, the grid is the single lag 1, yet the returned
`"fpe"` entry is `None` rather than the smallest lag attaining the minimum —
for the FPE criterion no lag order is returned at all.  (The AIC entry shows
the tie-keeps-earliest behaviour: `fitCex` gives lags 1 and 2 equal AIC and
lag 1 is kept when `max_lag = 2`.) -/
theorem select_lag_length_fpe_not_argmin_cex :
    (select_lag_length fitCex 1).lag_fpe = none ∧
    (select_lag_length fitCex 2).lag_aic = some 1 ∧
    (select_lag_length fitCex 2).lag_fpe = none := by
  decide

/-- Claim C2 (amended): for every call with `max_lag ≥ 1`, the returned AIC
and BIC lag orders are the smallest lags in `[1, max_lag]` attaining the
minimum of their criterion over the grid (the running minimum updates only on
strict `<`, so equal values keep the earlier lag); the FPE entry obeys the
same rule over the lags whose fitted object exposes an `fpe` value — in
particular, whenever every fit exposes one (never the case for sm.OLS
results, whence the counterexample). -/
theorem select_lag_length_argmin (fit : ℕ → OLSFit) (max_lag : ℤ)
    (hml : 1 ≤ max_lag) :
    (∃ L, (select_lag_length fit max_lag).lag_aic = some L ∧ L ∈ lagGrid max_lag ∧
      (∀ l ∈ lagGrid max_lag, (fit L).aic ≤ (fit l).aic) ∧
      (∀ l ∈ lagGrid max_lag, (fit l).aic = (fit L).aic → L ≤ l)) ∧
    (∃ L, (select_lag_length fit max_lag).lag_bic = some L ∧ L ∈ lagGrid max_lag ∧
      (∀ l ∈ lagGrid max_lag, (fit L).bic ≤ (fit l).bic) ∧
      (∀ l ∈ lagGrid max_lag, (fit l).bic = (fit L).bic → L ≤ l)) ∧
    ((∀ l ∈ lagGrid max_lag, (fit l).fpe ≠ none) →
      ∃ L cL, (select_lag_length fit max_lag).lag_fpe = some L ∧ L ∈ lagGrid max_lag ∧
        (fit L).fpe = some cL ∧
        (∀ l ∈ lagGrid max_lag, ∀ c, (fit l).fpe = some c → cL ≤ c) ∧
        (∀ l ∈ lagGrid max_lag, (fit l).fpe = some cL → L ≤ l)) := by
  have h1 : 1 ∈ lagGrid max_lag := one_mem_lagGrid max_lag hml
  refine ⟨?_, ?_, ?_⟩
  · have hproj : ((select_lag_length fit max_lag).best_aic,
        (select_lag_length fit max_lag).lag_aic) =
        List.foldl (critStep (fun lag => some (fit lag).aic)) (none, none)
          (lagGrid max_lag) :=
      foldl_selStep_aic fit (lagGrid max_lag) initSel
    rcases critFold_correct (fun lag => some (fit lag).aic) (lagGrid max_lag)
        (lagGrid_pairwise max_lag) with ⟨hnone, _⟩ | ⟨m, L, heq, hL, hvL, hmin, hfirst⟩
    · cases hnone 1 h1
    · rw [heq] at hproj
      have hm : m = (fit L).aic := (Option.some.inj hvL).symm
      refine ⟨L, ?_, hL, ?_, ?_⟩
      · exact congrArg Prod.snd hproj
      · intro l hl
        rw [← hm]
        exact hmin l hl (fit l).aic rfl
      · intro l hl he
        exact hfirst l hl (by rw [he, ← hm])
  · have hproj : ((select_lag_length fit max_lag).best_bic,
        (select_lag_length fit max_lag).lag_bic) =
        List.foldl (critStep (fun lag => some (fit lag).bic)) (none, none)
          (lagGrid max_lag) :=
      foldl_selStep_bic fit (lagGrid max_lag) initSel
    rcases critFold_correct (fun lag => some (fit lag).bic) (lagGrid max_lag)
        (lagGrid_pairwise max_lag) with ⟨hnone, _⟩ | ⟨m, L, heq, hL, hvL, hmin, hfirst⟩
    · cases hnone 1 h1
    · rw [heq] at hproj
      have hm : m = (fit L).bic := (Option.some.inj hvL).symm
      refine ⟨L, ?_, hL, ?_, ?_⟩
      · exact congrArg Prod.snd hproj
      · intro l hl
        rw [← hm]
        exact hmin l hl (fit l).bic rfl
      · intro l hl he
        exact hfirst l hl (by rw [he, ← hm])
  · intro hall
    have hproj : ((select_lag_length fit max_lag).best_fpe,
        (select_lag_length fit max_lag).lag_fpe) =
        List.foldl (critStep (fun lag => (fit lag).fpe)) (none, none)
          (lagGrid max_lag) :=
      foldl_selStep_fpe fit (lagGrid max_lag) initSel
    rcases critFold_correct (fun lag => (fit lag).fpe) (lagGrid max_lag)
        (lagGrid_pairwise max_lag) with ⟨hnone, _⟩ | ⟨m, L, heq, hL, hvL, hmin, hfirst⟩
    · exact absurd (hnone 1 h1) (hall 1 h1)
    · rw [heq] at hproj
      exact ⟨L, m, congrArg Prod.snd hproj, hL, hvL, hmin, hfirst⟩

/-- Claim C2 (witness): the amended selection property instantiated at the
concrete fit oracle `fitW` with `max_lag = 3`. -/
theorem select_lag_length_argmin_witness :
    (1 : ℤ) ≤ 3 ∧
    ((∃ L, (select_lag_length fitW 3).lag_aic = some L ∧ L ∈ lagGrid 3 ∧
      (∀ l ∈ lagGrid 3, (fitW L).aic ≤ (fitW l).aic) ∧
      (∀ l ∈ lagGrid 3, (fitW l).aic = (fitW L).aic → L ≤ l)) ∧
    (∃ L, (select_lag_length fitW 3).lag_bic = some L ∧ L ∈ lagGrid 3 ∧
      (∀ l ∈ lagGrid 3, (fitW L).bic ≤ (fitW l).bic) ∧
      (∀ l ∈ lagGrid 3, (fitW l).bic = (fitW L).bic → L ≤ l)) ∧
    ((∀ l ∈ lagGrid 3, (fitW l).fpe ≠ none) →
      ∃ L cL, (select_lag_length fitW 3).lag_fpe = some L ∧ L ∈ lagGrid 3 ∧
        (fitW L).fpe = some cL ∧
        (∀ l ∈ lagGrid 3, ∀ c, (fitW l).fpe = some c → cL ≤ c) ∧
        (∀ l ∈ lagGrid 3, (fitW l).fpe = some cL → L ≤ l))) :=
  ⟨by decide, select_lag_length_argmin fitW 3 (by decide)⟩

/-- Claim C9: a call with `max_lag < 1` makes `range(1, max_lag + 1)` empty,
so the loop body never runs and the function returns with every criterion
still mapped to `None` (and every running minimum still at its initial
infinity). -/
theorem select_lag_length_empty_grid (fit : ℕ → OLSFit) (max_lag : ℤ)
    (h : max_lag < 1) :
    select_lag_length fit max_lag = ⟨none, none, none, none, none, none⟩ := by
  unfold select_lag_length lagGrid
  have h0 : max_lag.toNat = 0 := by omega
  rw [h0]
  rfl

/-- Claim C9 (witness): the empty-grid behaviour at `max_lag = 0`. -/
theorem select_lag_length_empty_grid_witness :
    (0 : ℤ) < 1 ∧ select_lag_length fitZ 0 = ⟨none, none, none, none, none, none⟩ :=
  ⟨by decide, select_lag_length_empty_grid fitZ 0 (by decide)⟩

/-- Claim C3: for a residual vector of length `n` and `k` regressors with
`n ≠ k`, the FPE the script computes from `ssr`, `n` and `k` (source line
168) coincides exactly, over exact arithmetic, with the FPE computed directly
from the residuals as `mean(ε²)·(n+k)/(n−k)`. -/
theorem fpe_roundtrip (resid : List ℚ) (n k : ℚ)
    (hn : n = (resid.length : ℚ)) (hnk : n ≠ k) :
    fpe_of (ssr_of resid) n k = fpe_direct resid k := by
  subst hn
  unfold fpe_of fpe_direct listMean ssr_of
  rw [List.length_map, mul_div_assoc]

/-- Claim C3 (witness): the round-trip identity at the residual vector
`[1, 2]` with `n = 2`, `k = 1`. -/
theorem fpe_roundtrip_witness :
    ((2 : ℚ) = ((List.length [(1 : ℚ), 2] : ℕ) : ℚ)) ∧ ((2 : ℚ) ≠ 1) ∧
    fpe_of (ssr_of [1, 2]) 2 1 = fpe_direct [1, 2] 1 :=
  ⟨by simp, by norm_num, fpe_roundtrip [1, 2] 2 1 (by simp) (by norm_num)⟩

/-- Claim C4 (counterexample): a series with a missing interior value — a
`NaN` with observations before and after it — is not rejected by `adf_test`:
the `series.dropna()` on source line 103 deletes the interior `NaN`, so
`adfuller` receives exactly the same input as for the gap-free series with
that entry removed, and the test computes and returns an ADF result instead
of failing. -/
theorem adf_test_interior_missing_cex :
    has_interior_missing [some 1, none, some 2, some 3] = true ∧
    adf_test (fun l => l) [some 1, none, some 2, some 3] = [(1 : ℚ), 2, 3] ∧
    adf_test (fun l => l) [some 1, none, some 2, some 3] =
      adf_test (fun l => l) [some 1, some 2, some 3] := by
  decide

/-- Claim C4 (amended): `adf_test` never signals missing interior values: for
every series and every behaviour of the downstream `adfuller`, its result
equals the result on the gap-free compaction of the series (all missing
values dropped), so interior missingness is silently removed rather than
being an error. -/
theorem adf_test_drops_missing {α : Type} (adfuller : List ℚ → α)
    (series : List (Option ℚ)) :
    adf_test adfuller series = adf_test adfuller ((dropna series).map some) := by
  unfold adf_test
  congr 1
  simp [dropna]

/-- Claim C6 (counterexample): the program's acceptance set is not "exact
YYYY-MM-DD, start before end": `validate_dates` returns the pair
`("2020-1-1", "2020-1-2")` unchanged although neither string has the exact
zero-padded `YYYY-MM-DD` shape (strptime's `%m`/`%d` accept single digits),
and it exits with the format error on `("1000-01-01", "2000-01-01")` — both
exactly formatted and strictly ordered — because year 1000 is outside the
`pd.Timestamp` range and `OutOfBoundsDatetime` is a `ValueError`. -/
theorem validate_dates_not_exact_format_cex :
    validate_dates "2020-1-1" "2020-1-2" = Except.ok ("2020-1-1", "2020-1-2") ∧
    exactYMD "2020-1-1" = none ∧
    validate_dates "1000-01-01" "2000-01-01" =
      Except.error "Dates must be YYYY-MM-DD" ∧
    exactYMD "1000-01-01" = some (1000, 1, 1) ∧
    exactYMD "2000-01-01" = some (2000, 1, 1) ∧
    dateLt (1000, 1, 1) (2000, 1, 1) = true :=
  ⟨rfl, rfl, rfl, rfl, rfl, rfl⟩

/-- Claim C6 (amended): `validate_dates` returns the pair `(start, end)`
unchanged exactly when both strings parse under `pd.to_datetime` with format
`%Y-%m-%d` — a four-digit year, one/two-digit month, and one/two-digit or
space-padded day forming a valid calendar date inside the `pd.Timestamp`
range 1677-09-22..2262-04-11 — and the start date strictly precedes the end
date; any returned value is the input pair itself, and in every other case
the function exits with an error (modelled as `Except.error`). -/
theorem validate_dates_spec (s e : String) :
    (validate_dates s e = Except.ok (s, e) ↔
      ∃ ds de, to_datetime s = some ds ∧ to_datetime e = some de ∧
        dateLt ds de = true) ∧
    (∀ p, validate_dates s e = Except.ok p → p = (s, e)) := by
  unfold validate_dates
  rcases hs : to_datetime s with _ | ds <;> rcases he : to_datetime e with _ | de
  · simp
  · simp
  · simp
  · by_cases hd : dateLt ds de = true
    · simp [hd]
    · simp [hd]

/-- Claim C6 (witness): a well-formed, strictly ordered pair of dates is
returned unchanged. -/
theorem validate_dates_spec_witness :
    validate_dates "2020-01-01" "2024-04-30" =
      Except.ok ("2020-01-01", "2024-04-30") :=
  (validate_dates_spec "2020-01-01" "2024-04-30").1.mpr
    ⟨(2020, 1, 1), (2024, 4, 30), rfl, rfl, rfl⟩

/-- Claim C7: whatever the five raw input series are, the panel built by
`build_dataframe` has exactly the columns `["ndx_ret", "ffr", "gs10", "cpi",
"vix"]`, the canonical lower-case labels in input order — the unconditional
`df.columns` assignment on source line 96 makes the raw provider naming
irrelevant. -/
theorem build_dataframe_columns (a b c d e : RawSeries) :
    (build_dataframe a b c d e).columns = baseColumns :=
  rfl

/-- Claim C5 (counterexample): with the VIX raw series empty, `build_dataframe`
does not return an "empty series" condition — it silently builds the merged
five-column panel, with the `vix` column entirely missing. -/
theorem build_dataframe_proceeds_cex :
    build_dataframe ndxC ffrC gs10C cpiC [] =
      ⟨[0], [("ndx_ret", [none]), ("ffr", [some 2]), ("gs10", [some 4]),
             ("cpi", [some 100]), ("vix", [none])]⟩ := by
  decide

/-- Claim C5 (amended): `build_dataframe` contains no emptiness check of any
kind: for every choice of the other four raw series, an empty `vix` input
produces the merged panel with all five canonical columns and the `vix`
column entirely missing — the function never returns an error condition. -/
theorem build_dataframe_empty_series (a b c d : RawSeries) :
    (build_dataframe a b c d []).columns = baseColumns ∧
    (build_dataframe a b c d []).getCol "vix" =
      some (List.replicate (build_dataframe a b c d []).index.length none) := by
  constructor
  · rfl
  · show some ((build_dataframe a b c d []).index.map (alignAt [])) = _
    have h1 : (build_dataframe a b c d []).index.map (alignAt []) =
        (build_dataframe a b c d []).index.map (fun _ => (none : Option ℚ)) := by
      apply List.map_congr_left
      intro m _
      exact alignAt_nil m
    rw [h1, map_none_replicate]

/-- Claim C8: on a panel with exactly the five base columns, the transform
block appends `d_ffr`, `d_gs10`, `inflation`, `d_vix` as new named columns,
each a pure function (`diff`, `pct_change·100`) of a pre-existing column, and
leaves every pre-existing column's values unchanged. -/
theorem add_derived_frame (df : Panel) (h : df.cols.map Prod.fst = baseColumns) :
    (add_derived df).columns =
      baseColumns ++ ["d_ffr", "d_gs10", "inflation", "d_vix"] ∧
    (∀ nm ∈ baseColumns, (add_derived df).getCol nm = df.getCol nm) ∧
    (add_derived df).getCol "d_ffr" = some (diffCol (df.getColD "ffr")) ∧
    (add_derived df).getCol "d_gs10" = some (diffCol (df.getColD "gs10")) ∧
    (add_derived df).getCol "inflation" =
      some (scaleCol 100 (pct_changeCol (df.getColD "cpi"))) ∧
    (add_derived df).getCol "d_vix" = some (diffCol (df.getColD "vix")) := by
  obtain ⟨idx, cols⟩ := df
  rcases cols with _ | ⟨⟨n1, c1⟩, _ | ⟨⟨n2, c2⟩, _ | ⟨⟨n3, c3⟩, _ | ⟨⟨n4, c4⟩,
    _ | ⟨⟨n5, c5⟩, _ | ⟨⟨n6, c6⟩, cols⟩⟩⟩⟩⟩⟩ <;> simp [baseColumns] at h
  obtain ⟨h1, h2, h3, h4, h5⟩ := h
  subst h1; subst h2; subst h3; subst h4; subst h5
  refine ⟨rfl, ?_, rfl, rfl, rfl, rfl⟩
  intro nm hnm
  simp only [baseColumns, List.mem_cons, List.not_mem_nil, or_false] at hnm
  rcases hnm with rfl | rfl | rfl | rfl | rfl <;> rfl

/-- Claim C8 (witness): the frame effect at the concrete panel `df0` — the
`cpi` column is unchanged and the `inflation` column is the scaled percent
change of `cpi`. -/
theorem add_derived_frame_witness :
    df0.cols.map Prod.fst = baseColumns ∧
    (add_derived df0).getCol "cpi" = df0.getCol "cpi" ∧
    (add_derived df0).getCol "inflation" =
      some (scaleCol 100 (pct_changeCol (df0.getColD "cpi"))) :=
  ⟨rfl, (add_derived_frame df0 rfl).2.1 "cpi" (by decide),
   (add_derived_frame df0 rfl).2.2.2.2.1⟩

/-- Claim C10: on a panel with the five base columns, the derived `inflation`
column is the percent change of `cpi` scaled by 100: wherever period `t` and
its predecessor both hold observations `a` and `b`, the inflation value at
`t` is `100·(a/b − 1)`; and the first period's inflation value is missing
(`NaN`), not an error. -/
theorem inflation_column (df : Panel) (h : df.cols.map Prod.fst = baseColumns) :
    (∀ t a b, (df.getColD "cpi")[t]? = some (some b) →
      (df.getColD "cpi")[t + 1]? = some (some a) →
      ((add_derived df).getColD "inflation")[t + 1]? =
        some (some (100 * (a / b - 1)))) ∧
    (df.getColD "cpi" ≠ [] →
      ((add_derived df).getColD "inflation")[0]? = some none) := by
  obtain ⟨idx, cols⟩ := df
  rcases cols with _ | ⟨⟨n1, c1⟩, _ | ⟨⟨n2, c2⟩, _ | ⟨⟨n3, c3⟩, _ | ⟨⟨n4, c4⟩,
    _ | ⟨⟨n5, c5⟩, _ | ⟨⟨n6, c6⟩, cols⟩⟩⟩⟩⟩⟩ <;> simp [baseColumns] at h
  obtain ⟨h1, h2, h3, h4, h5⟩ := h
  subst h1; subst h2; subst h3; subst h4; subst h5
  constructor
  · intro t a b hb ha
    have hb2 : c4[t]? = some (some b) := hb
    have ha2 : c4[t + 1]? = some (some a) := ha
    show (scaleCol 100 (pct_changeCol c4))[t + 1]? = some (some (100 * (a / b - 1)))
    rw [scaleCol, List.getElem?_map, pct_changeCol, List.getElem?_zipWith,
      List.getElem?_cons_succ, hb2, ha2]
    simp [combinePct, mul_comm]
  · intro hne
    have hne2 : c4 ≠ [] := hne
    show (scaleCol 100 (pct_changeCol c4))[0]? = some none
    rcases c4 with _ | ⟨v, r⟩
    · exact absurd rfl hne2
    · cases v <;> simp [scaleCol, pct_changeCol, combinePct]

/-- Claim C10 (witness): at the concrete panel `df0` the inflation value for
the second month is `100·(110/100 − 1)` and the first month's value is
missing. -/
theorem inflation_column_witness :
    ((add_derived df0).getColD "inflation")[1]? =
      some (some (100 * ((110 : ℚ) / 100 - 1))) ∧
    ((add_derived df0).getColD "inflation")[0]? = some none :=
  ⟨(inflation_column df0 rfl).1 0 110 100 (by decide) (by decide),
   (inflation_column df0 rfl).2 (by decide)⟩
